import Mathlib

/-!
Shallow embedding of the `dremio-mcp-client` repository's core logic
(`dremio_api.py`, `mcp_bridge.py`, `pages/blueprint.py`) and proofs of the
specification claims about it.

Raw JSON-ish catalog payloads are modelled as records of optional fields;
Python truthiness (`a or b or ""`) is modelled explicitly; fallible HTTP
calls are modelled as `Except`-valued backend functions; loops that depend
on remote data are modelled with explicit fuel.
-/

namespace DremioSpec

/-- Python `.upper()` restricted to the ASCII payload values the code compares. -/
def pyUpper (s : String) : String := String.mk (s.toList.map Char.toUpper)

/-- Python `.lower()` restricted to ASCII. -/
def pyLower (s : String) : String := String.mk (s.toList.map Char.toLower)

/-- Python truthiness of an optional string: `None` and `""` are falsy. -/
def strTruthy : Option String → Option String
  | some s => if s = "" then none else some s
  | none => none

/-- Python `a or b or ""` over two optional string fields. -/
def pyOrStr (a b : Option String) : String :=
  match strTruthy a with
  | some s => s
  | none =>
    match strTruthy b with
    | some s => s
    | none => ""

/-- The characters stripped by Python's `str.strip()` / `str.rstrip()`. -/
def pySpace (c : Char) : Bool :=
  c = ' ' || c = '\t' || c = '\n' || c = '\r' || c = Char.ofNat 11 || c = Char.ofNat 12

/-- Python `s.rstrip()` (trailing whitespace removed). -/
def pyRstrip (s : String) : String :=
  String.mk (s.toList.reverse.dropWhile pySpace).reverse

/-- Python `s.lstrip()` (leading whitespace removed). -/
def pyLstrip (s : String) : String :=
  String.mk (s.toList.dropWhile pySpace)

/-- Python `s.strip()`. -/
def pyStrip (s : String) : String := pyRstrip (pyLstrip s)

/-- Python `s.rstrip(';')` (trailing semicolons removed). -/
def pyRstripSemi (s : String) : String :=
  String.mk (s.toList.reverse.dropWhile (fun c => c = ';')).reverse

/-- A raw `path` / `fullPathList` JSON value: either a single string or an
array of segment strings. -/
inductive PathVal where
  | str (s : String)
  | arr (xs : List String)
deriving DecidableEq

/-- Python truthiness of an optional path value: `None`, `""` and `[]` are falsy. -/
def pathTruthy : Option PathVal → Option PathVal
  | some (PathVal.str s) => if s = "" then none else some (PathVal.str s)
  | some (PathVal.arr xs) => if xs = [] then none else some (PathVal.arr xs)
  | none => none

/-- Iterating a raw path value the way Python's `for x in p` does: a string
iterates character by character, a list element by element. -/
def pvElems : PathVal → List String
  | PathVal.str s => s.toList.map (fun c => String.mk [c])
  | PathVal.arr xs => xs

/-- A nested `dataset` object as probed by `_is_view` / `create_view_catalog`. -/
structure DsObj where
  type : Option String := none
  datasetType : Option String := none
  tag : Option String := none
  sql : Option String := none
deriving DecidableEq

/-- The scalar fields of one raw catalog entry (an untyped key/value map in
the source; fields the code never probes are omitted). -/
structure EntryCore where
  id : Option String := none
  type : Option String := none
  entityType : Option String := none
  datasetType : Option String := none
  containerType : Option String := none
  name : Option String := none
  path : Option PathVal := none
  fullPathList : Option PathVal := none
  dataset : Option DsObj := none
  tag : Option String := none
deriving DecidableEq

/-- A raw catalog entry: scalar fields plus an inline `children` array
(absent modelled as `[]`, exactly how `ent.get("children", []) or []` reads it). -/
inductive Entry where
  | mk (core : EntryCore) (children : List Entry)

/-- Scalar fields of an entry. -/
def Entry.core : Entry → EntryCore
  | Entry.mk c _ => c

/-- Inline `children` field of an entry. -/
def Entry.children : Entry → List Entry
  | Entry.mk _ cs => cs

/-! ## Normalizer: `DremioClient._is_view` (dremio_api.py lines 158-187) -/

/-- `DremioClient._is_view`, translated clause by clause from the source:
`type_upper` is `(obj.get("type") or obj.get("entityType") or "").upper()`,
`ds_type_upper` is `(obj.get("datasetType") or obj.get("containerType") or "").upper()`,
and the three checks are tried in order, with `False` as the default. -/
def _is_view (obj : EntryCore) : Bool :=
  let type_upper := pyUpper (pyOrStr obj.type obj.entityType)
  let ds_type_upper := pyUpper (pyOrStr obj.datasetType obj.containerType)
  if type_upper = "VIRTUAL_DATASET" then true
  else if type_upper = "DATASET" &&
      (ds_type_upper = "VIRTUAL" || ds_type_upper = "VIRTUAL_DATASET") then true
  else
    let ds := obj.dataset.getD {}
    let ds_type2 := pyUpper (pyOrStr ds.type ds.datasetType)
    ds_type2 = "VIRTUAL" || ds_type2 = "VIRTUAL_DATASET"

/-- Shape rule 1 of the spec: an explicit top-level type equal to the
virtual-dataset marker. -/
def viewRule1 (obj : EntryCore) : Prop :=
  pyUpper (pyOrStr obj.type obj.entityType) = "VIRTUAL_DATASET"

/-- Shape rule 2 of the spec: a generic `DATASET` type paired with a sub-type
field (read from one of the two alternate field names `datasetType` /
`containerType`) equal to `VIRTUAL` or `VIRTUAL_DATASET`. -/
def viewRule2 (obj : EntryCore) : Prop :=
  pyUpper (pyOrStr obj.type obj.entityType) = "DATASET" ∧
    (pyUpper (pyOrStr obj.datasetType obj.containerType) = "VIRTUAL" ∨
      pyUpper (pyOrStr obj.datasetType obj.containerType) = "VIRTUAL_DATASET")

/-- Shape rule 3 of the spec: an embedded nested `dataset` object whose own
type / sub-type field is `VIRTUAL` or `VIRTUAL_DATASET`. -/
def viewRule3 (obj : EntryCore) : Prop :=
  pyUpper (pyOrStr (obj.dataset.getD {}).type (obj.dataset.getD {}).datasetType) = "VIRTUAL" ∨
    pyUpper (pyOrStr (obj.dataset.getD {}).type (obj.dataset.getD {}).datasetType) = "VIRTUAL_DATASET"

/-! ## Normalizer: `DremioClient._normalize_path` (dremio_api.py lines 189-194) -/

/-- Python's `isinstance(parts, str)` coercion step: a bare string becomes a
one-element list, a list stays itself. -/
def pvToList : PathVal → List String
  | PathVal.str s => [s]
  | PathVal.arr xs => xs

/-- `DremioClient._normalize_path`:
`parts = obj.get("path") or obj.get("fullPathList") or []`;
a bare string is wrapped into a one-element list;
`path_str = ".".join(parts) if parts else None`. -/
def _normalize_path (obj : EntryCore) : List String × Option String :=
  let parts0 : PathVal :=
    match pathTruthy obj.path with
    | some v => v
    | none =>
      match pathTruthy obj.fullPathList with
      | some v => v
      | none => PathVal.arr []
  let parts := pvToList parts0
  let path_str := if parts.isEmpty then none else some (String.intercalate "." parts)
  (parts, path_str)

/-! ## View writer, statement-based: `quote_identifier` and `create_view_sql`
(dremio_api.py lines 312-318 and 327-343) -/

/-- One step of Python `p.replace('"', '""')`: every double quote is doubled. -/
def escQ : List Char → List Char
  | [] => []
  | c :: rest => if c = '"' then '"' :: '"' :: escQ rest else c :: escQ rest

/-- Quoting of one path segment: `f'"{p.replace('"', '""')}"'`. -/
def quoteSeg (p : String) : String := "\"" ++ String.mk (escQ p.toList) ++ "\""

/-- `DremioClient.quote_identifier`: each segment double-quoted with internal
quotes doubled, segments joined by `"."`. (The source's `if p is not None`
filter is a no-op here: segments are modelled as strings.) -/
def quote_identifier (parts : List String) : String :=
  String.intercalate "." (parts.map quoteSeg)

/-- `DremioClient.create_view_sql`, parametrized by the `run_sql` backend call
(`POST /api/v3/sql`, returning the job id): composes
`f"{prefix} {ident} AS {select_sql.rstrip().rstrip(';')}"` and submits it. -/
def create_view_sql (run_sql : String → String) (path_parts : List String)
    (select_sql : String) (or_replace : Bool) : String :=
  let ident := quote_identifier path_parts
  let pfx := if or_replace then "CREATE OR REPLACE VIEW" else "CREATE VIEW"
  run_sql (pfx ++ " " ++ ident ++ " AS " ++ pyRstripSemi (pyRstrip select_sql))

/-! ## Job runner: `wait_for_job` (dremio_api.py lines 289-308) -/

/-- A raw job object; the state is read as
`(job.get("jobState") or job.get("state") or "").upper()`. -/
structure JobObj where
  jobState : Option String := none
  state : Option String := none
deriving DecidableEq

/-- Normalized job state string, exactly as the source computes it. -/
def jobStateUpper (j : JobObj) : String := pyUpper (pyOrStr j.jobState j.state)

/-- Terminal iff state is in the source's set `{"COMPLETED","CANCELED","FAILED"}`. -/
def isTerminalState (s : String) : Bool :=
  s = "COMPLETED" || s = "CANCELED" || s = "FAILED"

/-- Outcome of the polling loop: the final job object, or a `TimeoutError`
carrying the last observed state. -/
inductive WaitOutcome where
  | done (job : JobObj)
  | timedOut (lastState : String)
deriving DecidableEq

/-- `DremioClient.wait_for_job`'s polling loop. `get_job k` is the job object
returned by the k-th `GET /api/v3/job/{id}`; `clock k` is the value of
`time.time()` at the k-th deadline check; `deadline` is the initial time plus
`timeout_s`. The loop is given explicit fuel (`none` = fuel exhausted before
the loop decided; the source loop has no iteration bound of its own). -/
def wait_for_job (get_job : Nat → JobObj) (clock : Nat → Int) (deadline : Int) :
    Nat → Nat → Option WaitOutcome
  | 0, _ => none
  | fuel + 1, k =>
    let job := get_job k
    let st := jobStateUpper job
    if isTerminalState st then some (WaitOutcome.done job)
    else if clock k ≥ deadline then some (WaitOutcome.timedOut st)
    else wait_for_job get_job clock deadline fuel (k + 1)

/-! ## SQL safety guard and limit enforcement (pages/blueprint.py) -/

/-- A word character for the purposes of the regex `\b` boundary
(ASCII `[A-Za-z0-9_]`, matching the payloads the code handles). -/
def isWordChar (c : Char) : Bool := c.isAlphanum || c = '_'

/-- The compiled regex `_SQL_SELECT_RE = ^\s*select\b` (IGNORECASE, DOTALL),
applied with `.match` (anchored at the start): optional leading whitespace,
the keyword `select` case-insensitively, then a word boundary. -/
def sqlSelectMatch (s : String) : Bool :=
  let t := s.toList.dropWhile pySpace
  (t.take 6).map Char.toLower = "select".toList &&
    (match t.drop 6 with
     | [] => true
     | c :: _ => !(isWordChar c))

/-- Whether the regex `\blimit\s+\d+\b` (IGNORECASE) matches at the head of
`cs`: the literal `limit`, one or more whitespace characters, one or more
digits, then a word boundary. -/
def limitMatchAt (cs : List Char) : Bool :=
  (cs.take 5).map Char.toLower = "limit".toList &&
    (let rest := cs.drop 5
     let ws := rest.takeWhile pySpace
     let rest2 := rest.dropWhile pySpace
     let ds := rest2.takeWhile Char.isDigit
     let rest3 := rest2.dropWhile Char.isDigit
     !ws.isEmpty && !ds.isEmpty &&
       (match rest3 with
        | [] => true
        | c :: _ => !(isWordChar c)))

/-- `re.search` for `\blimit\s+\d+\b`: try every position, requiring a word
boundary before the match (`prev` is the character preceding the current
position, `none` at the start of the string). -/
def limitSearch : Option Char → List Char → Bool
  | prev, [] =>
    (match prev with
     | none => true
     | some p => !(isWordChar p)) && limitMatchAt []
  | prev, c :: rest =>
    ((match prev with
      | none => true
      | some p => !(isWordChar p)) && limitMatchAt (c :: rest)) ||
      limitSearch (some c) rest

/-- `_SQL_LIMIT_RE.search(sql)`: the SQL already contains a `limit <digits>`
clause (case-insensitive, anywhere in the string). -/
def hasLimitClause (s : String) : Bool := limitSearch none s.toList

/-- `_ensure_limit` (blueprint.py lines 227-237): if the query has no LIMIT
clause, append `" LIMIT {default_limit}"` to the query with trailing
whitespace and trailing semicolons stripped; otherwise return it unchanged
(`max_limit` is not consulted in that branch). -/
def _ensure_limit (sql : String) (default_limit : Int) (max_limit : Int) : String :=
  if !(hasLimitClause sql) then
    pyRstripSemi (pyRstrip sql) ++ " LIMIT " ++ toString default_limit
  else sql

/-- Decision of the pre-network validation phase of `run_sql_endpoint`. -/
inductive GuardDecision where
  | reject (msg : String) (status : Nat)
  | accept
deriving DecidableEq

/-- The validation phase of `run_sql_endpoint` (blueprint.py lines 246-264):
`sql = (data.get("sql") or "").strip()`; empty SQL is rejected; when
`ENFORCE_SELECT_ONLY` is set, a remaining semicolon after
`sql.strip().rstrip(";")` rejects as multi-statement, and failure of
`_SQL_SELECT_RE.match(sql)` rejects as non-SELECT. -/
def multiStmtCheck (sql : String) : Bool :=
  (pyRstripSemi (pyStrip sql)).toList.any (fun c => c = ';')

def run_sql_guard (enforce_select_only : Bool) (raw_sql : String) : GuardDecision :=
  let sql := pyStrip raw_sql
  if sql = "" then GuardDecision.reject "Provide 'sql'" 400
  else if enforce_select_only && multiStmtCheck sql then
    GuardDecision.reject "Multiple statements are not allowed." 400
  else if enforce_select_only && !(sqlSelectMatch sql) then
    GuardDecision.reject "Only SELECT queries are allowed." 400
  else GuardDecision.accept

/-- The guarded part of `run_sql_endpoint` up to and including the submission
of the SQL: a rejected query returns the error envelope without invoking the
backend (`run`), an accepted query runs the limit-capped SQL,
`_ensure_limit(sql, min(DEFAULT_LIMIT, MAX_LIMIT), MAX_LIMIT)`. -/
def run_sql_endpoint {α : Type} (enforce_select_only : Bool) (run : String → α)
    (default_limit max_limit : Int) (raw_sql : String) : Except (String × Nat) α :=
  match run_sql_guard enforce_select_only raw_sql with
  | GuardDecision.reject m s => Except.error (m, s)
  | GuardDecision.accept =>
    Except.ok (run (_ensure_limit (pyStrip raw_sql) (min default_limit max_limit) max_limit))

/-! ## Catalog backend, traversal (dremio_api.py lines 113-154) and the
entity-based view writer (lines 345-463) -/

/-- Python `str(x)` on a raw id value: `None` formats as `"None"`
(as it does inside the f-string URL `f"/api/v3/catalog/{entity_id}..."`). -/
def pyStrOfOpt : Option String → String
  | none => "None"
  | some s => s

/-- Error classes raised by backend calls: `requests.HTTPError` (raised by
`raise_for_status`), any other transport exception, and `RuntimeError`
raised by the client itself. -/
inductive ApiErr where
  | http (status : Nat)
  | transport (msg : String)
  | runtime (msg : String)
deriving DecidableEq

/-- A raw JSON document with optional `children` and `data` arrays: the shape
of both the root-catalog response and the children-endpoint response. -/
structure CatalogDoc where
  children : Option (List Entry) := none
  data : Option (List Entry) := none

/-- `data.get("children", data.get("data", [])) or []`: the `children` key
wins whenever present (get-with-default, not truthiness), else `data`,
else `[]`. -/
def childrenOfDoc (d : CatalogDoc) : List Entry :=
  match d.children with
  | some l => l
  | none =>
    match d.data with
    | some l => l
    | none => []

/-- `root.get("data") or root.get("children") or []` (truthiness: an empty
list falls through). -/
def rootItems (d : CatalogDoc) : List Entry :=
  match d.data with
  | some (x :: xs) => x :: xs
  | _ =>
    match d.children with
    | some (x :: xs) => x :: xs
    | _ => []

/-- The create-view payload POSTed by `create_view_catalog`. -/
structure CreatePayload where
  entityType : String
  type : String
  path : List String
  sql : String
  sqlContext : Option (List String)
deriving DecidableEq

/-- The PUT body used by the `or_replace` recovery path; `tag` is present
only when the fetched entity carried a truthy tag. -/
structure PutBody where
  entityType : String
  id : String
  type : String
  path : List String
  sql : String
  tag : Option String
deriving DecidableEq

/-- The remote catalog backend as the client sees it: one `Except`-valued
function per HTTP endpoint the traversal and the writer call. -/
structure CatBackend where
  children_endpoint : String → Except ApiErr CatalogDoc
  get_entity : String → Except ApiErr Entry
  get_root : Except ApiErr CatalogDoc
  post_catalog : CreatePayload → Except ApiErr Entry
  put_catalog : String → PutBody → Except ApiErr Entry

/-- `DremioClient.get_children`: try `GET /catalog/{id}/children`; on
`requests.HTTPError` (and only that class) fall back to `GET /catalog/{id}`
and read the inline `children` field; any other error, and any error of the
fallback fetch itself, propagates. -/
def get_children (b : CatBackend) (entity_id : String) : Except ApiErr (List Entry) :=
  match b.children_endpoint entity_id with
  | Except.ok doc => Except.ok (childrenOfDoc doc)
  | Except.error (ApiErr.http _) =>
    match b.get_entity entity_id with
    | Except.ok ent => Except.ok ent.children
    | Except.error e => Except.error e
  | Except.error e => Except.error e

/-- `(child.get("type") or child.get("entityType") or "").upper()` is
`CONTAINER` or `FOLDER`: the walker recurses into such children only. -/
def isContainerType (e : EntryCore) : Bool :=
  let t := pyUpper (pyOrStr e.type e.entityType)
  t = "CONTAINER" || t = "FOLDER"

/-- How a traversal run ended: frontier exhausted, aborted by a propagating
exception, or the modelling fuel ran out first. -/
inductive TravEnd where
  | finished
  | aborted (e : ApiErr)
  | outOfFuel
deriving DecidableEq

/-- `DremioClient.iter_space_tree`'s breadth-first loop over a frontier of
raw `id` values (a falsy id is skipped); each dequeued node's children are
yielded in order and container/folder children are enqueued. An exception
from `get_children` propagates out of the generator, ending the traversal.
Returns the entries yielded before the end, and how the run ended. -/
def iter_space_tree_go (b : CatBackend) : Nat → List (Option String) → List Entry × TravEnd
  | _, [] => ([], TravEnd.finished)
  | 0, _ :: _ => ([], TravEnd.outOfFuel)
  | fuel + 1, nid :: rest =>
    match strTruthy nid with
    | none => iter_space_tree_go b fuel rest
    | some node_id =>
      match get_children b node_id with
      | Except.error e => ([], TravEnd.aborted e)
      | Except.ok kids =>
        let enq := (kids.filter (fun k => isContainerType k.core)).map (fun k => k.core.id)
        let res := iter_space_tree_go b fuel (rest ++ enq)
        (kids ++ res.1, res.2)

/-- `DremioClient.iter_space_tree(space_id)`: the frontier starts as
`[("SPACE", {"id": space_id})]`. -/
def iter_space_tree (b : CatBackend) (space_id : String) (fuel : Nat) :
    List Entry × TravEnd :=
  iter_space_tree_go b fuel [some space_id]

/-- The filter of `DremioClient.iter_spaces` applied to one root entry:
type `SPACE`, or type `CONTAINER` with containerType `SPACE`. -/
def isSpaceEntry (e : EntryCore) : Bool :=
  let t := pyUpper (pyOrStr e.type e.entityType)
  let ct := pyUpper (pyOrStr e.containerType none)
  t = "SPACE" || (t = "CONTAINER" && ct = "SPACE")

/-- `DremioClient.iter_spaces`: the root listing filtered to spaces (a failed
root fetch propagates out of the generator). -/
def iter_spaces (b : CatBackend) : Except ApiErr (List Entry) :=
  match b.get_root with
  | Except.ok root => Except.ok ((rootItems root).filter (fun e => isSpaceEntry e.core))
  | Except.error e => Except.error e

/-- The `path_matches` predicate of the recovery search:
`[str(x).lower() for x in (obj.get("path") or obj.get("fullPathList") or [])]
== wanted` (a bare-string path iterates character by character). -/
def path_matches (wanted : List String) (obj : EntryCore) : Bool :=
  let p : PathVal :=
    match pathTruthy obj.path with
    | some v => v
    | none =>
      match pathTruthy obj.fullPathList with
      | some v => v
      | none => PathVal.arr []
  decide ((pvElems p).map pyLower = wanted)

/-- The `scan` helper of the recovery search: first item of the node's
`data`-or-`children` listing whose path matches. -/
def scanItems (wanted : List String) (items : List Entry) : Option Entry :=
  items.find? (fun it => path_matches wanted it.core)

/-- The last-resort loop of the recovery search: for each space, fetch its
children (note: `s.get("id")` is passed raw, so a space without an id turns
into the literal URL segment `None`) and return the first path match; an
error from `get_children` propagates. -/
def scanSpaces (b : CatBackend) (wanted : List String) :
    List Entry → Except ApiErr (Option Entry)
  | [] => Except.ok none
  | s :: rest =>
    match get_children b (pyStrOfOpt s.core.id) with
    | Except.error e => Except.error e
    | Except.ok kids =>
      match kids.find? (fun c => path_matches wanted c.core) with
      | some c => Except.ok (some c)
      | none => scanSpaces b wanted rest

/-- The message of the unrecoverable-inconsistency `RuntimeError`. -/
def viewNotFoundMsg (path_parts : List String) : String :=
  "View exists but ID not found for path " ++ String.intercalate "." path_parts

/-- The tag attached to the recovery PUT body:
`tag = full.get("tag") or (full.get("dataset") or {}).get("tag")`, included
only when truthy. -/
def recoveryTag (full : Entry) : Option String :=
  let tag := pyOrStr full.core.tag (full.core.dataset.getD {}).tag
  if tag = "" then none else some tag

/-- The PUT body issued by the recovery path for entity `eid`. -/
def recoveryPutBody (path_parts : List String) (select_sql : String) (eid : String)
    (full : Entry) : PutBody :=
  { entityType := "dataset", id := eid, type := "VIRTUAL_DATASET",
    path := path_parts, sql := select_sql, tag := recoveryTag full }

/-- `DremioClient.create_view_catalog`: POST the view entity; only a
`requests.HTTPError` from the POST is caught (`except requests.HTTPError`,
any other exception propagates with no recovery), and then with
`or_replace=False` it is re-raised; with `or_replace=True` run the recovery
search (root listing first, then space-by-space children scan), fail with a
`RuntimeError` when no matching entity (or no truthy id) is found, otherwise
fetch the full entity and PUT the new SQL with its concurrency tag. Inner
exceptions propagate (the source's `except Exception: raise` re-raises). -/
def createPayloadFor (path_parts : List String) (select_sql : String)
    (sql_context : Option (List String)) : CreatePayload :=
  { entityType := "dataset", type := "VIRTUAL_DATASET", path := path_parts,
    sql := select_sql, sqlContext := sql_context }

def create_view_catalog (b : CatBackend) (path_parts : List String) (select_sql : String)
    (sql_context : Option (List String)) (or_replace : Bool) : Except ApiErr Entry :=
  let payload : CreatePayload := createPayloadFor path_parts select_sql sql_context
  match b.post_catalog payload with
  | Except.ok ent => Except.ok ent
  | Except.error (ApiErr.http status) =>
    if !or_replace then Except.error (ApiErr.http status)
    else
      match b.get_root with
      | Except.error e2 => Except.error e2
      | Except.ok root =>
        let wanted := path_parts.map pyLower
        let foundE : Except ApiErr (Option Entry) :=
          match scanItems wanted (rootItems root) with
          | some f => Except.ok (some f)
          | none =>
            match iter_spaces b with
            | Except.error e2 => Except.error e2
            | Except.ok spaces => scanSpaces b wanted spaces
        match foundE with
        | Except.error e2 => Except.error e2
        | Except.ok none => Except.error (ApiErr.runtime (viewNotFoundMsg path_parts))
        | Except.ok (some f) =>
          match strTruthy f.core.id with
          | none => Except.error (ApiErr.runtime (viewNotFoundMsg path_parts))
          | some eid =>
            match b.get_entity eid with
            | Except.error e2 => Except.error e2
            | Except.ok full =>
              b.put_catalog eid (recoveryPutBody path_parts select_sql eid full)
  | Except.error e => Except.error e

/-! ## Session bridge teardown (mcp_bridge.py lines 119-135) -/

/-- Which of the bridge's attributes are currently set (non-`None`):
`_session_cm`, `_stdio_cm`, `session`, `read`/`write`. -/
structure BridgeState where
  session_cm : Bool
  stdio_cm : Bool
  session : Bool
  read : Bool
  write : Bool
deriving DecidableEq

/-- Teardown steps `_aclose` can perform, in the order it performs them. -/
inductive CloseAction where
  | exitSession
  | exitStdio
deriving DecidableEq

/-- `MCPBridge._aclose`: exit and clear the session context if set, then exit
and clear the stdio context if set; returns the new attribute state and the
ordered list of teardown steps performed. -/
def _aclose (st : BridgeState) : BridgeState × List CloseAction :=
  let step1 : BridgeState × List CloseAction :=
    if st.session_cm then
      ({ st with session_cm := false, session := false }, [CloseAction.exitSession])
    else (st, [])
  let step2 : BridgeState × List CloseAction :=
    if step1.1.stdio_cm then
      ({ step1.1 with stdio_cm := false, read := false, write := false },
        [CloseAction.exitStdio])
    else (step1.1, [])
  (step2.1, step1.2 ++ step2.2)

/-- The lazy bridge singleton of `pages/blueprint.py::get_bridge`: when the
global is unset, a bridge is constructed and connected, and stored only if
the connection succeeded (a connect failure leaves the global unset). -/
def get_bridge (bridge : Option BridgeState) (connect : Except String BridgeState) :
    Option BridgeState :=
  match bridge with
  | some b => some b
  | none =>
    match connect with
    | Except.ok b => some b
    | Except.error _ => none

/-! ## Tool-use loop (mcp_bridge.py lines 64-114) -/

/-- One content block of a model turn: a text fragment or a tool-use request
(with its id, tool name, and input). -/
inductive Block where
  | text (s : String)
  | toolUse (tuId : String) (name : String) (input : String)
deriving DecidableEq

/-- The payload `ClientSession.call_tool` returns: per the MCP protocol a
tool execution failure is reported in-band (`isError` with the failure text
as content), not as a raised exception. -/
structure ToolResult where
  isError : Bool
  content : String
deriving DecidableEq

/-- One conversation message, as appended by the loop. -/
inductive Msg where
  | user (content : String)
  | assistant (blocks : List Block)
  | toolResults (results : List (String × String))
deriving DecidableEq

/-- One entry of the observability trace. -/
inductive TraceEntry where
  | assistantText (s : String)
  | toolCalled (name : String) (input : String) (result : String)
deriving DecidableEq

/-- The text fragments of a model turn. -/
def textsOf (blocks : List Block) : List String :=
  blocks.filterMap fun b =>
    match b with
    | Block.text s => some s
    | _ => none

/-- The tool-use requests `(id, name, input)` of a model turn. -/
def toolUsesOf (blocks : List Block) : List (String × String × String) :=
  blocks.filterMap fun b =>
    match b with
    | Block.toolUse i n inp => some (i, n, inp)
    | _ => none

/-- `MCPBridge._aprocess_query`'s tool-use loop. `model` is the LLM call on
the conversation so far, `call_tool` the MCP tool invocation; fuel bounds
the unbounded `while True` (`none` = fuel ran out before the model stopped
requesting tools). Each iteration records assistant text and every tool
call in the trace, feeds every tool result's content back as a tool-result
message, and loops; a turn with no tool uses returns the answer and trace. -/
def _aprocess_query (model : List Msg → List Block)
    (call_tool : String → String → ToolResult) :
    Nat → List Msg → List TraceEntry → Option (String × List TraceEntry)
  | 0, _, _ => none
  | fuel + 1, messages, trace =>
    let blocks := model messages
    let ts := textsOf blocks
    let tus := toolUsesOf blocks
    let trace1 := if ts.isEmpty then trace
      else trace ++ [TraceEntry.assistantText (String.intercalate "\n" ts)]
    if tus.isEmpty then some (String.intercalate "\n" ts, trace1)
    else
      let tool_results := tus.map fun tu => (tu.1, (call_tool tu.2.1 tu.2.2).content)
      let trace2 := trace1 ++ tus.map fun tu =>
        TraceEntry.toolCalled tu.2.1 tu.2.2 (call_tool tu.2.1 tu.2.2).content
      _aprocess_query model call_tool fuel
        (messages ++ [Msg.assistant blocks, Msg.toolResults tool_results]) trace2

/-! ## Concrete example data used by the witnesses and counterexamples -/

/-- A folder child whose children endpoint and entity fetch both fail. -/
def entFolderA : Entry := Entry.mk { id := some "A", type := some "FOLDER" } []

/-- A folder child whose subtree is healthy. -/
def entFolderB : Entry := Entry.mk { id := some "B", type := some "FOLDER" } []

/-- A dataset inside folder B, reachable only through B's children. -/
def entDatasetC : Entry := Entry.mk { id := some "C", type := some "DATASET" } []

/-- A backend where space `S` lists folders `A` and `B`; every fetch about
`A` fails (children endpoint and entity fallback), while `B`'s children
endpoint works and lists `C`. -/
def cexWalkBackend : CatBackend where
  children_endpoint := fun eid =>
    if eid = "S" then Except.ok { children := some [entFolderA, entFolderB] }
    else if eid = "B" then Except.ok { children := some [entDatasetC] }
    else Except.error (ApiErr.http 500)
  get_entity := fun _ => Except.error (ApiErr.http 404)
  get_root := Except.error (ApiErr.http 500)
  post_catalog := fun _ => Except.error (ApiErr.http 500)
  put_catalog := fun _ _ => Except.error (ApiErr.http 500)

/-- A backend like `cexWalkBackend` but where `A`'s entity fallback works
and carries no inline children. -/
def okWalkBackend : CatBackend where
  children_endpoint := fun eid =>
    if eid = "S" then Except.ok { children := some [entFolderA, entFolderB] }
    else if eid = "B" then Except.ok { children := some [entDatasetC] }
    else Except.error (ApiErr.http 500)
  get_entity := fun eid =>
    if eid = "A" then Except.ok (Entry.mk { id := some "A", type := some "FOLDER" } [])
    else Except.error (ApiErr.http 404)
  get_root := Except.error (ApiErr.http 500)
  post_catalog := fun _ => Except.error (ApiErr.http 500)
  put_catalog := fun _ _ => Except.error (ApiErr.http 500)

/-- The existing view entity as it appears in the root listing. -/
def vwEntry : Entry :=
  Entry.mk { id := some "E1", path := some (PathVal.arr ["IIDS", "V1"]) } []

/-- The full view entity as returned by `GET /catalog/E1`, carrying tag `t1`. -/
def vwFull : Entry :=
  Entry.mk
    { id := some "E1", path := some (PathVal.arr ["IIDS", "V1"]), tag := some "t1" } []

/-- The entity returned by the successful PUT. -/
def vwResult : Entry := Entry.mk { id := some "E1", tag := some "t2" } []

/-- A backend in the state after a successful earlier creation of the view
`IIDS.V1`: POST fails (it already exists), the root listing contains it, the
entity fetch returns its tag, and a PUT carrying that tag succeeds. -/
def vwBackend : CatBackend where
  children_endpoint := fun _ => Except.error (ApiErr.http 500)
  get_entity := fun eid =>
    if eid = "E1" then Except.ok vwFull else Except.error (ApiErr.http 404)
  get_root := Except.ok { data := some [vwEntry] }
  post_catalog := fun _ => Except.error (ApiErr.http 409)
  put_catalog := fun eid body =>
    if eid = "E1" ∧ body.tag = some "t1" then Except.ok vwResult
    else Except.error (ApiErr.http 412)

/-- The attribute state of a bridge whose `connect()` never completed:
nothing is set. -/
def freshBridge : BridgeState :=
  { session_cm := false, stdio_cm := false, session := false,
    read := false, write := false }

/-- A model that requests one tool call on its first turn and answers with
text only on its second. -/
def wModel : List Msg → List Block := fun msgs =>
  if msgs.length = 1 then [Block.toolUse "tu1" "run_sql" "select 1"]
  else [Block.text "done"]

/-- A tool executor whose every invocation fails, reporting the failure
in-band as the result content. -/
def wCallTool : String → String → ToolResult := fun _ _ =>
  { isError := true, content := "tool failed: boom" }

end DremioSpec

namespace DremioSpec

/-- C1: the view classifier agrees exactly with the disjunction of the three
documented shape rules: `_is_view obj` is `true` iff rule 1, rule 2 or
rule 3 holds of the raw payload. The classifier is a pure function of the
payload (it is embedded as a total Lean function with no effects). -/
theorem is_view_iff_shape_rules (obj : EntryCore) :
    _is_view obj = true ↔ (viewRule1 obj ∨ viewRule2 obj ∨ viewRule3 obj) := by
  by_cases h1 : pyUpper (pyOrStr obj.type obj.entityType) = "VIRTUAL_DATASET" <;>
  by_cases h2 : pyUpper (pyOrStr obj.type obj.entityType) = "DATASET" <;>
  by_cases h3 : pyUpper (pyOrStr obj.datasetType obj.containerType) = "VIRTUAL" <;>
  by_cases h4 : pyUpper (pyOrStr obj.datasetType obj.containerType) = "VIRTUAL_DATASET" <;>
  by_cases h5 :
    pyUpper (pyOrStr (obj.dataset.getD {}).type (obj.dataset.getD {}).datasetType) =
      "VIRTUAL" <;>
  by_cases h6 :
    pyUpper (pyOrStr (obj.dataset.getD {}).type (obj.dataset.getD {}).datasetType) =
      "VIRTUAL_DATASET" <;>
  simp [_is_view, viewRule1, viewRule2, viewRule3, h1, h2, h3, h4, h5, h6]

/-- C8: path normalization prefers the explicit `path` array, falls back to
`fullPathList`, converts a single-string path into a one-element list,
yields an empty path when no path field is present, and for every non-empty
normalized path the derived path string is the segments joined by `"."`. -/
theorem normalize_path_spec :
    (∀ obj : EntryCore, ∀ xs : List String,
        obj.path = some (PathVal.arr xs) → xs ≠ [] →
        _normalize_path obj = (xs, some (String.intercalate "." xs))) ∧
    (∀ obj : EntryCore, ∀ xs : List String,
        obj.path = none → obj.fullPathList = some (PathVal.arr xs) → xs ≠ [] →
        _normalize_path obj = (xs, some (String.intercalate "." xs))) ∧
    (∀ obj : EntryCore, ∀ s : String,
        obj.path = some (PathVal.str s) → s ≠ "" →
        (_normalize_path obj).1 = [s]) ∧
    (∀ obj : EntryCore,
        obj.path = none → obj.fullPathList = none →
        _normalize_path obj = ([], none)) ∧
    (∀ obj : EntryCore, (_normalize_path obj).1 ≠ [] →
        (_normalize_path obj).2 =
          some (String.intercalate "." (_normalize_path obj).1)) := by
  refine ⟨?_, ?_, ?_, ?_, ?_⟩
  · intro obj xs hp hne
    unfold _normalize_path
    rw [hp]
    simp [pathTruthy, pvToList, hne, List.isEmpty_iff]
  · intro obj xs hp hf hne
    unfold _normalize_path
    rw [hp, hf]
    simp [pathTruthy, pvToList, hne, List.isEmpty_iff]
  · intro obj s hp hne
    unfold _normalize_path
    rw [hp]
    simp [pathTruthy, pvToList, hne]
  · intro obj hp hf
    unfold _normalize_path
    rw [hp, hf]
    simp [pathTruthy, pvToList]
  · intro obj hne
    have h : (_normalize_path obj).2 =
        if (_normalize_path obj).1.isEmpty then none
        else some (String.intercalate "." (_normalize_path obj).1) := rfl
    rw [h, if_neg]
    simp [List.isEmpty_iff]
    exact hne

/-- Concrete witness for C8: an entry whose `path` is `["a", "b"]`
normalizes to `(["a", "b"], some "a.b")`. -/
theorem normalize_path_spec_witness :
    _normalize_path { path := some (PathVal.arr ["a", "b"]) } = (["a", "b"], some "a.b") := by
  have h := normalize_path_spec.1 { path := some (PathVal.arr ["a", "b"]) } ["a", "b"] rfl
    (by decide)
  rw [h]
  rfl

/-- C7: the statement-based writer submits exactly
`"CREATE OR REPLACE VIEW "` (resp. `"CREATE VIEW "` when `or_replace` is
false) followed by the qualified identifier — each segment wrapped in double
quotes with internal double quotes doubled, segments joined by `"."` —
followed by `" AS "` and the SELECT text with trailing whitespace and then
trailing semicolons stripped, and returns the job identifier produced by the
SQL submission call for that exact string. -/
theorem create_view_sql_format (run_sql : String → String) (path_parts : List String)
    (select_sql : String) (or_replace : Bool) (hne : path_parts ≠ []) :
    create_view_sql run_sql path_parts select_sql or_replace =
      run_sql ((if or_replace then "CREATE OR REPLACE VIEW " else "CREATE VIEW ") ++
        String.intercalate "."
          (path_parts.map (fun p => "\"" ++ String.mk (escQ p.toList) ++ "\"")) ++
        " AS " ++ pyRstripSemi (pyRstrip select_sql)) := by
  cases or_replace <;> rfl

/-- Concrete witness for C7: quoting doubles an embedded double quote, the
segments are dot-joined, and the trailing `"; "` of the SELECT is stripped. -/
theorem create_view_sql_format_witness :
    create_view_sql (fun s => s) ["IIDS", "my\"view"] "SELECT 1; " true =
      "CREATE OR REPLACE VIEW \"IIDS\".\"my\"\"view\" AS SELECT 1" := by
  have h := create_view_sql_format (fun s => s) ["IIDS", "my\"view"] "SELECT 1; " true
    (by decide)
  rw [h]
  decide

/-- C5: the job wait polls until the state is terminal (in
`{COMPLETED, CANCELED, FAILED}`) and then returns that job object for any
terminal state, or until the clock reaches the deadline, in which case it
raises a `TimeoutError` carrying the last observed state; it never returns a
job whose state is non-terminal, and in the remaining case it simply polls
again. -/
theorem wait_for_job_spec (get_job : Nat → JobObj) (clock : Nat → Int) (deadline : Int) :
    (∀ fuel k j, wait_for_job get_job clock deadline fuel k = some (WaitOutcome.done j) →
        isTerminalState (jobStateUpper j) = true) ∧
    (∀ fuel k, isTerminalState (jobStateUpper (get_job k)) = true →
        wait_for_job get_job clock deadline (fuel + 1) k =
          some (WaitOutcome.done (get_job k))) ∧
    (∀ fuel k, isTerminalState (jobStateUpper (get_job k)) = false →
        clock k ≥ deadline →
        wait_for_job get_job clock deadline (fuel + 1) k =
          some (WaitOutcome.timedOut (jobStateUpper (get_job k)))) ∧
    (∀ fuel k, isTerminalState (jobStateUpper (get_job k)) = false →
        ¬ clock k ≥ deadline →
        wait_for_job get_job clock deadline (fuel + 1) k =
          wait_for_job get_job clock deadline fuel (k + 1)) := by
  refine ⟨?_, ?_, ?_, ?_⟩
  · intro fuel
    induction fuel with
    | zero => intro k j h; simp [wait_for_job] at h
    | succ n ih =>
      intro k j h
      rw [wait_for_job] at h
      by_cases ht : isTerminalState (jobStateUpper (get_job k)) = true
      · simp only [ht, if_true] at h
        cases h
        exact ht
      · simp only [ht] at h
        by_cases hc : clock k ≥ deadline
        · simp [hc] at h
        · simp only [hc, if_false] at h
          exact ih (k + 1) j (by simpa [Bool.not_eq_true] using h)
  · intro fuel k ht
    rw [wait_for_job]
    simp [ht]
  · intro fuel k ht hc
    rw [wait_for_job]
    simp [ht, hc]
  · intro fuel k ht hc
    rw [wait_for_job]
    simp [ht, hc]

/-- Concrete witness for C5: a job already in state `CANCELED` (a terminal
state) is returned immediately, without raising. -/
theorem wait_for_job_spec_witness :
    wait_for_job (fun _ => { jobState := some "canceled" }) (fun k => (k : Int)) 100 1 0 =
      some (WaitOutcome.done { jobState := some "canceled" }) :=
  (wait_for_job_spec (fun _ => { jobState := some "canceled" })
    (fun k => (k : Int)) 100).2.1 0 0 (by decide)

/-- C6: with single-statement SELECT enforcement enabled, a non-empty
submission is accepted iff no interior semicolon remains after stripping
trailing semicolons and it begins with the keyword `SELECT`
case-insensitively; a rejected submission produces the error envelope without
invoking the SQL backend (the result is independent of the backend); and on
the three documented inputs: `"SELECT 1; DROP TABLE x"` is rejected as
multi-statement, `"UPDATE t SET x=1"` is rejected as non-SELECT, and
`"select * from t"` is accepted. -/
theorem sql_guard_spec :
    (∀ raw : String, pyStrip raw ≠ "" →
        (run_sql_guard true raw = GuardDecision.accept ↔
          (multiStmtCheck (pyStrip raw) = false ∧
            sqlSelectMatch (pyStrip raw) = true))) ∧
    (∀ raw : String, ∀ {α : Type} (r₁ r₂ : String → α) (d m : Int),
        run_sql_guard true raw ≠ GuardDecision.accept →
        run_sql_endpoint true r₁ d m raw = run_sql_endpoint true r₂ d m raw) ∧
    run_sql_guard true "SELECT 1; DROP TABLE x" =
      GuardDecision.reject "Multiple statements are not allowed." 400 ∧
    run_sql_guard true "UPDATE t SET x=1" =
      GuardDecision.reject "Only SELECT queries are allowed." 400 ∧
    run_sql_guard true "select * from t" = GuardDecision.accept := by
  refine ⟨?_, ?_, by decide, by decide, by decide⟩
  · intro raw h
    unfold run_sql_guard
    rw [if_neg h]
    by_cases h1 : multiStmtCheck (pyStrip raw) = true <;>
    by_cases h2 : sqlSelectMatch (pyStrip raw) = true <;>
    simp [h1, h2]
  · intro raw α r₁ r₂ d m hne
    unfold run_sql_endpoint
    cases hg : run_sql_guard true raw with
    | reject msg st => rfl
    | accept => exact absurd hg hne

/-- Concrete witness for C6: `"select * from t"` passes the guard, via the
acceptance characterization. -/
theorem sql_guard_spec_witness :
    run_sql_guard true "select * from t" = GuardDecision.accept :=
  (sql_guard_spec.1 "select * from t" (by decide)).mpr (by decide)

/-- C10: with the caller-requested limit capped at the configured maximum
(`min d m`, as at the call site), a SQL string already containing a
`limit <digits>` clause (case-insensitively, anywhere) is returned unchanged,
and a SQL string without one is returned with trailing whitespace and
trailing semicolons stripped and `" LIMIT "` plus the capped limit appended. -/
theorem ensure_limit_spec (sql : String) (d m : Int) :
    (hasLimitClause sql = true → _ensure_limit sql (min d m) m = sql) ∧
    (hasLimitClause sql = false →
      _ensure_limit sql (min d m) m =
        pyRstripSemi (pyRstrip sql) ++ " LIMIT " ++ toString (min d m)) := by
  constructor
  · intro h; simp [_ensure_limit, h]
  · intro h; simp [_ensure_limit, h]

/-- Concrete witness for C10: a caller-supplied LIMIT inside a subquery is
left untouched, and a query without a LIMIT gets `" LIMIT 200"` appended
(200 = min(200, 5000)) after its trailing `"; "` is stripped. -/
theorem ensure_limit_spec_witness :
    _ensure_limit "select * from (select a from t limit 10)" (min 200 5000) 5000 =
        "select * from (select a from t limit 10)" ∧
    _ensure_limit "select * from t; " (min 200 5000) 5000 =
        "select * from t LIMIT 200" := by
  constructor
  · exact (ensure_limit_spec "select * from (select a from t limit 10)" 200 5000).1
      (by decide)
  · have h := (ensure_limit_spec "select * from t; " 200 5000).2 (by decide)
    rw [h]
    decide

/-- C2 (counterexample to the claim as stated): when a node's children
endpoint fails with an HTTP error AND the fallback entity fetch fails too,
the traversal does NOT continue with the rest of the frontier: here space
`S` lists folders `A` and `B`, every fetch about `A` fails, and the
traversal ends aborted after yielding only `A` and `B` — `B`'s child `C`
(the rest of the frontier's subtree) is never yielded, contradicting
"in every failure case it continues with the rest of the frontier". -/
theorem iter_space_tree_abort_cex :
    iter_space_tree cexWalkBackend "S" 10 =
      ([entFolderA, entFolderB], TravEnd.aborted (ApiErr.http 404)) ∧
    ((iter_space_tree cexWalkBackend "S" 10).1.map (fun e => e.core.id)) =
      [some "A", some "B"] :=
  ⟨rfl, rfl⟩

/-- C2 (amended): an HTTP failure of the children endpoint alone is
non-fatal — the walker falls back to fetching the full entity and reading
its inline `children` (absent modelled as none), and with any successful
`get_children` result it continues with the rest of the frontier — but when
`get_children` fails overall (e.g. the fallback entity fetch also fails),
the error propagates and aborts the whole traversal. -/
theorem iter_space_tree_fallback_spec :
    (∀ (b : CatBackend) (eid : String) (st : Nat) (ent : Entry),
        b.children_endpoint eid = Except.error (ApiErr.http st) →
        b.get_entity eid = Except.ok ent →
        get_children b eid = Except.ok ent.children) ∧
    (∀ (b : CatBackend) (fuel : Nat) (rest : List (Option String)) (eid : String)
        (kids : List Entry), eid ≠ "" →
        get_children b eid = Except.ok kids →
        iter_space_tree_go b (fuel + 1) (some eid :: rest) =
          ((kids ++ (iter_space_tree_go b fuel
              (rest ++ (kids.filter (fun k => isContainerType k.core)).map
                (fun k => k.core.id))).1),
            (iter_space_tree_go b fuel
              (rest ++ (kids.filter (fun k => isContainerType k.core)).map
                (fun k => k.core.id))).2)) ∧
    (∀ (b : CatBackend) (fuel : Nat) (rest : List (Option String)) (eid : String)
        (e : ApiErr), eid ≠ "" →
        get_children b eid = Except.error e →
        iter_space_tree_go b (fuel + 1) (some eid :: rest) = ([], TravEnd.aborted e)) := by
  refine ⟨?_, ?_, ?_⟩
  · intro b eid st ent h1 h2
    unfold get_children
    rw [h1, h2]
  · intro b fuel rest eid kids heid hkids
    rw [iter_space_tree_go]
    simp [strTruthy, heid, hkids]
  · intro b fuel rest eid e heid herr
    rw [iter_space_tree_go]
    simp [strTruthy, heid, herr]

/-- Concrete witness for the amended C2: with the entity fallback available
for `A` (returning no inline children), the same traversal completes and
does reach `C` through the rest of the frontier. -/
theorem iter_space_tree_fallback_spec_witness :
    get_children okWalkBackend "A" = Except.ok [] ∧
    iter_space_tree okWalkBackend "S" 10 =
      ([entFolderA, entFolderB, entDatasetC], TravEnd.finished) := by
  constructor
  · exact iter_space_tree_fallback_spec.1 okWalkBackend "A" 500
      (Entry.mk { id := some "A", type := some "FOLDER" } []) rfl rfl
  · rfl

/-- C3: after a POST that fails with an HTTP error (the only failure class
`except requests.HTTPError` catches; any non-HTTP POST failure propagates
unchanged with no recovery, per the last conjunct) with `or_replace=true`,
the writer recovers by case-insensitive path matching — scanning the root
listing first (no children calls needed on a hit), then, only if unmatched,
each space's children — then fetches the full entity and issues the PUT
carrying its concurrency tag; when no matching entity is found it raises
the unrecoverable-inconsistency `RuntimeError` instead of POSTing again;
and when the recovery PUT succeeds (as after an earlier successful creation
of the same path), the call reports success and does not raise. -/
theorem create_view_catalog_recovery_spec (b : CatBackend) (path_parts : List String)
    (select_sql : String) (sql_context : Option (List String)) :
    (∀ (status : Nat) (root : CatalogDoc) (f : Entry) (eid : String) (full : Entry),
        b.post_catalog (createPayloadFor path_parts select_sql sql_context) =
          Except.error (ApiErr.http status) →
        b.get_root = Except.ok root →
        scanItems (path_parts.map pyLower) (rootItems root) = some f →
        strTruthy f.core.id = some eid →
        b.get_entity eid = Except.ok full →
        create_view_catalog b path_parts select_sql sql_context true =
          b.put_catalog eid (recoveryPutBody path_parts select_sql eid full)) ∧
    (∀ (status : Nat) (root : CatalogDoc) (f : Entry) (eid : String) (full : Entry),
        b.post_catalog (createPayloadFor path_parts select_sql sql_context) =
          Except.error (ApiErr.http status) →
        b.get_root = Except.ok root →
        scanItems (path_parts.map pyLower) (rootItems root) = none →
        scanSpaces b (path_parts.map pyLower)
            ((rootItems root).filter (fun x => isSpaceEntry x.core)) =
          Except.ok (some f) →
        strTruthy f.core.id = some eid →
        b.get_entity eid = Except.ok full →
        create_view_catalog b path_parts select_sql sql_context true =
          b.put_catalog eid (recoveryPutBody path_parts select_sql eid full)) ∧
    (∀ (status : Nat) (root : CatalogDoc),
        b.post_catalog (createPayloadFor path_parts select_sql sql_context) =
          Except.error (ApiErr.http status) →
        b.get_root = Except.ok root →
        scanItems (path_parts.map pyLower) (rootItems root) = none →
        scanSpaces b (path_parts.map pyLower)
            ((rootItems root).filter (fun x => isSpaceEntry x.core)) =
          Except.ok none →
        create_view_catalog b path_parts select_sql sql_context true =
          Except.error (ApiErr.runtime (viewNotFoundMsg path_parts))) ∧
    (∀ (status : Nat) (root : CatalogDoc) (f : Entry) (eid : String) (full res : Entry),
        b.post_catalog (createPayloadFor path_parts select_sql sql_context) =
          Except.error (ApiErr.http status) →
        b.get_root = Except.ok root →
        scanItems (path_parts.map pyLower) (rootItems root) = some f →
        strTruthy f.core.id = some eid →
        b.get_entity eid = Except.ok full →
        b.put_catalog eid (recoveryPutBody path_parts select_sql eid full) =
          Except.ok res →
        create_view_catalog b path_parts select_sql sql_context true =
          Except.ok res) ∧
    (∀ e : ApiErr, (∀ status : Nat, e ≠ ApiErr.http status) →
        b.post_catalog (createPayloadFor path_parts select_sql sql_context) =
          Except.error e →
        ∀ or_replace : Bool,
          create_view_catalog b path_parts select_sql sql_context or_replace =
            Except.error e) := by
  refine ⟨?_, ?_, ?_, ?_, ?_⟩
  · intro status root f eid full hpost hroot hscan hid hent
    simp only [create_view_catalog]
    rw [hpost, hroot]
    simp [hscan, hid, hent]
  · intro status root f eid full hpost hroot hscan hspaces hid hent
    simp only [create_view_catalog]
    rw [hpost, hroot]
    simp [hscan, iter_spaces, hroot, hspaces, hid, hent]
  · intro status root hpost hroot hscan hspaces
    simp only [create_view_catalog]
    rw [hpost, hroot]
    simp [hscan, iter_spaces, hroot, hspaces]
  · intro status root f eid full res hpost hroot hscan hid hent hput
    simp only [create_view_catalog]
    rw [hpost, hroot]
    simp [hscan, hid, hent, hput]
  · intro e hne hpost or_replace
    simp only [create_view_catalog]
    rw [hpost]
    cases e with
    | http status => exact absurd rfl (hne status)
    | transport msg => rfl
    | runtime msg => rfl

/-- Concrete witness for C3, the idempotence scenario: on a backend in the
state after a successful earlier creation of `IIDS.V1` (POST now fails, the
root listing contains the entity, its tag is `t1`, the PUT carrying `t1`
succeeds), a second `create_view_catalog` call with `or_replace=true` and
the same path/SQL returns the updated entity instead of raising. -/
theorem create_view_catalog_recovery_spec_witness :
    create_view_catalog vwBackend ["IIDS", "V1"] "SELECT 1" none true =
      Except.ok vwResult :=
  (create_view_catalog_recovery_spec vwBackend ["IIDS", "V1"] "SELECT 1" none).2.2.2.1
    409 { data := some [vwEntry] } vwEntry "E1" vwFull vwResult
    rfl rfl rfl rfl rfl rfl

/-- C4: in the tool-use loop, a model turn that requests tool calls always
leads to the next model turn: every requested tool is invoked, each
invocation's result content — which for a failed tool carries the failure
in-band, per the MCP call-tool contract — is appended as that tool's
tool-result message and recorded in the trace, and the loop recurses on the
extended conversation; moreover the whole loop's behaviour depends on the
tool results only through their content, never on their error flag, so a
tool execution failure cannot abort the loop or the conversation. -/
theorem tool_loop_failure_recovery (model : List Msg → List Block)
    (ct : String → String → ToolResult) :
    (∀ (fuel : Nat) (messages : List Msg) (trace : List TraceEntry),
        toolUsesOf (model messages) ≠ [] →
        _aprocess_query model ct (fuel + 1) messages trace =
          _aprocess_query model ct fuel
            (messages ++ [Msg.assistant (model messages),
              Msg.toolResults ((toolUsesOf (model messages)).map fun tu =>
                (tu.1, (ct tu.2.1 tu.2.2).content))])
            ((if (textsOf (model messages)).isEmpty then trace
              else trace ++ [TraceEntry.assistantText
                (String.intercalate "\n" (textsOf (model messages)))]) ++
              (toolUsesOf (model messages)).map fun tu =>
                TraceEntry.toolCalled tu.2.1 tu.2.2 (ct tu.2.1 tu.2.2).content)) ∧
    (∀ ct₂ : String → String → ToolResult,
        (∀ n i, (ct n i).content = (ct₂ n i).content) →
        ∀ (fuel : Nat) (messages : List Msg) (trace : List TraceEntry),
          _aprocess_query model ct fuel messages trace =
            _aprocess_query model ct₂ fuel messages trace) := by
  constructor
  · intro fuel messages trace hne
    rw [_aprocess_query]
    simp [List.isEmpty_iff, hne]
  · intro ct₂ hc fuel
    induction fuel with
    | zero => intro messages trace; rfl
    | succ n ih =>
      intro messages trace
      rw [_aprocess_query, _aprocess_query]
      have hmap1 : (fun tu : String × String × String =>
          (tu.1, (ct tu.2.1 tu.2.2).content)) =
          (fun tu => (tu.1, (ct₂ tu.2.1 tu.2.2).content)) :=
        funext fun tu => by rw [hc]
      have hmap2 : (fun tu : String × String × String =>
          TraceEntry.toolCalled tu.2.1 tu.2.2 (ct tu.2.1 tu.2.2).content) =
          (fun tu => TraceEntry.toolCalled tu.2.1 tu.2.2 (ct₂ tu.2.1 tu.2.2).content) :=
        funext fun tu => by rw [hc]
      by_cases hemp : (toolUsesOf (model messages)).isEmpty
      · simp [hemp]
      · simp only [hemp, if_false, Bool.false_eq_true]
        rw [hmap1, hmap2, ih]

/-- Concrete witness for C4: a run where the single requested tool call
fails (`isError = true`) still continues to a second model turn and
terminates with the model's text answer, the failure content having been
recorded in the trace and fed back. -/
theorem tool_loop_failure_recovery_witness :
    _aprocess_query wModel wCallTool 2 [Msg.user "q"] [] =
      some ("done",
        [TraceEntry.toolCalled "run_sql" "select 1" "tool failed: boom",
          TraceEntry.assistantText "done"]) := by
  have h := (tool_loop_failure_recovery wModel wCallTool).1 1 [Msg.user "q"] []
    (by decide)
  rw [h]
  rfl

/-- C9: `_aclose` tears down in strict reverse order of acquisition — when
both contexts are set the session context is exited first, then the stdio
context — both context attributes are always cleared afterwards, and when
connect() never completed (both contexts unset) no teardown step is
performed and the state is untouched (the function is total, so nothing is
raised); the module-level singleton, which is only assigned after a
successful connect, is then still unset and a later `get_bridge` can
initialize it afresh. -/
theorem bridge_close_spec :
    (∀ st : BridgeState, st.session_cm = true → st.stdio_cm = true →
        (_aclose st).2 = [CloseAction.exitSession, CloseAction.exitStdio]) ∧
    (∀ st : BridgeState,
        (_aclose st).1.session_cm = false ∧ (_aclose st).1.stdio_cm = false) ∧
    (∀ st : BridgeState, st.session_cm = false → st.stdio_cm = false →
        _aclose st = (st, [])) ∧
    (∀ b : BridgeState, get_bridge none (Except.ok b) = some b) := by
  refine ⟨?_, ?_, ?_, ?_⟩
  · intro st h1 h2
    simp [_aclose, h1, h2]
  · intro st
    by_cases h1 : st.session_cm <;> by_cases h2 : st.stdio_cm <;>
      simp [_aclose, h1, h2]
  · intro st h1 h2
    simp [_aclose, h1, h2]
  · intro b
    rfl

/-- Concrete witness for C9: closing a bridge whose connect() never
completed performs no teardown and leaves the state unchanged. -/
theorem bridge_close_spec_witness :
    _aclose freshBridge = (freshBridge, []) :=
  bridge_close_spec.2.2.1 freshBridge rfl rfl

end DremioSpec
